import Mathlib

/-!
Shallow embedding of the OMERO CLI user-administration plugin
(`src/omero/plugins/user.py`) and proofs about its behaviour.

Each sub-command (`password`, `add`, `list`, `email`, `joingroup`,
`leavegroup`) is modelled as a pure function from its parsed arguments and
an environment (the responses the remote administrative service would give)
to a result holding the trace of remote calls issued, the lines written to
the output channels, and the process exit.
-/

namespace OmeroUser

/-- The experimenter record assembled by `add` and passed to the creation
call (fields set at `user.py` lines 200-206). -/
structure NewExperimenter where
  omeName : String
  firstName : String
  lastName : String
  middleName : Option String
  email : Option String
  institution : Option String
deriving DecidableEq

/-- One remote administrative-service call, as issued by the plugin. -/
inductive AdminCall where
  | lookupExperimenter (login : String)
  | lookupExperimenters
  | lookupGroup (nameOrId : String)
  | getSecurityRoles
  | setSecurityPassword (pw : String)
  | changePassword (pw : String)
  | changeUserPassword (username : String) (pw : String)
  | createExperimenter (e : NewExperimenter) (primaryGroup : Int)
      (secondaryGroups : List Int)
  | createExperimenterWithPassword (e : NewExperimenter) (pw : String)
      (primaryGroup : Int) (secondaryGroups : List Int)
  | addUsersToGroup (gid : Int) (uids : List Int)
  | removeUsersFromGroup (gid : Int) (uids : List Int)
  | addOwnersToGroup (gid : Int) (uids : List Int)
  | removeOwnersFromGroup (gid : Int) (uids : List Int)
deriving DecidableEq

/-- How a sub-command terminates: normally, or via `ctx.die(code, msg)`. -/
inductive CmdExit where
  | ok
  | died (code : Nat) (msg : String)
deriving DecidableEq

/-- Observable outcome of one sub-command invocation: the remote calls
issued in order, the lines printed on the normal output channel, and the
exit status. -/
structure CmdResult where
  calls : List AdminCall
  outs : List String
  exit : CmdExit
deriving DecidableEq

/-- True exactly on the two password-mutation calls. -/
def isChangeCall : AdminCall → Bool
  | AdminCall.changePassword _ => true
  | AdminCall.changeUserPassword _ _ => true
  | _ => false

/-- True exactly on the two user-creation calls. -/
def isCreateCall : AdminCall → Bool
  | AdminCall.createExperimenter _ _ _ => true
  | AdminCall.createExperimenterWithPassword _ _ _ _ => true
  | _ => false

/-! ## The `password` sub-command (`user.py` lines 107-135) -/

/-- Environment for `password`: the session user's name, the passwords the
two interactive prompts return, and whether `setSecurityPassword` succeeds
or raises `SecurityViolation`. -/
structure PasswordEnv where
  ownName : String
  ownPw : String
  newPw : String
  verifyOk : Bool
deriving DecidableEq

/-- The password-mutation call chosen at `user.py` lines 131-134:
`changeUserPassword` when a target username was given, `changePassword`
otherwise. -/
def changeCallFor : Option String → String → AdminCall
  | some u, pw => AdminCall.changeUserPassword u pw
  | none, pw => AdminCall.changePassword pw

/-- `UserControl.password`: verify the caller's own credential via
`setSecurityPassword`; on `SecurityViolation` die with code 456; otherwise
prompt for the new password and apply it. -/
def password (username : Option String) (env : PasswordEnv) : CmdResult :=
  let verify := AdminCall.setSecurityPassword env.ownPw
  if env.verifyOk then
    let target := match username with
      | some u => u
      | none => env.ownName
    ⟨[verify, changeCallFor username env.newPw],
     ["Verified password.\n", "Changing password for " ++ target,
      "Password changed"],
     CmdExit.ok⟩
  else
    ⟨[verify], [], CmdExit.died 456 "SecurityViolation: Bad credentials"⟩

/-! ## The `add` sub-command (`user.py` lines 185-246) -/

/-- Parsed arguments of `add`. -/
structure AddArgs where
  username : String
  firstname : String
  lastname : String
  middlename : Option String
  email : Option String
  institution : Option String
  userpassword : Option String
  admin : Bool
  ignore_existing : Bool
  member_of : List String
deriving DecidableEq

/-- Outcome of `admin.lookupExperimenter(login)` at `user.py` line 210:
a truthy record, a falsy result, or an `ApiUsageException` (swallowed at
line 217, meaning no such user). -/
inductive LookupUserResult where
  | found (id : Int)
  | nullResult
  | apiUsage
deriving DecidableEq

/-- Outcome of `admin.lookupGroup(group)` at `user.py` line 221. -/
inductive LookupGroupResult where
  | found (gid : Int)
  | apiUsage (msg : String)
deriving DecidableEq

/-- Outcome of the creation call at `user.py` lines 233-246: success, a
`ValidationException` that is a constraint violation, another
`ValidationException`, or a `SecurityViolation`. -/
inductive CreateResult where
  | ok (id : Int)
  | validationConstraint
  | validationOther (msg : String)
  | securityViolation (msg : String)
deriving DecidableEq

/-- Environment for `add`: the remote responses. -/
structure AddEnv where
  lookupUser : LookupUserResult
  lookupGroup : String → LookupGroupResult
  userGroupId : Int
  systemGroupId : Int
  createResult : CreateResult

/-- The id found by the initial user lookup, when truthy. -/
def foundId : LookupUserResult → Option Int
  | LookupUserResult.found i => some i
  | _ => none

/-- The list comprehension `[admin.lookupGroup(group) for group in
args.member_of]` (`user.py` line 221): returns the prefix of names actually
looked up (the comprehension stops at the first `ApiUsageException`) and
either the resolved ids or the exception message. -/
def resolveGroups (f : String → LookupGroupResult) :
    List String → List String × Except String (List Int)
  | [] => ([], Except.ok [])
  | g :: gs =>
    match f g with
    | LookupGroupResult.apiUsage m => ([g], Except.error m)
    | LookupGroupResult.found gid =>
      let r := resolveGroups f gs
      (g :: r.1, r.2.map (fun ids => gid :: ids))

/-- `groups.pop(0)` on `ids ++ [userGroupId] ++ tl` (`user.py` lines
226-230): the first resolved group becomes primary, the rest plus the
appended role groups become secondary. -/
def popFirst (ids : List Int) (userGroupId : Int) (tl : List Int) :
    Int × List Int :=
  match ids with
  | [] => (userGroupId, tl)
  | p :: rest => (p, rest ++ userGroupId :: tl)

/-- The experimenter record built at `user.py` lines 200-206. -/
def mkNewExperimenter (args : AddArgs) : NewExperimenter :=
  ⟨args.username, args.firstname, args.lastname, args.middlename,
   args.email, args.institution⟩

/-- The creation call at `user.py` lines 233-237: with password when
`-P` was given, without otherwise. -/
def mkCreateCall (args : AddArgs) (primary : Int) (secondary : List Int) :
    AdminCall :=
  match args.userpassword with
  | none => AdminCall.createExperimenter (mkNewExperimenter args) primary secondary
  | some pw =>
    AdminCall.createExperimenterWithPassword (mkNewExperimenter args) pw
      primary secondary

/-- The part of `UserControl.add` after the duplicate-login check
(`user.py` lines 220-246): resolve the groups (exit 68 on failure), fetch
the security roles, append the user group (and the system group when
`--admin`), pop the primary group, issue the creation call and map its
exceptions to exit codes 66/67/68. -/
def proceedAdd (args : AddArgs) (env : AddEnv) : CmdResult :=
  let lookCall := AdminCall.lookupExperimenter args.username
  let r := resolveGroups env.lookupGroup args.member_of
  match r.2 with
  | Except.error m =>
    ⟨lookCall :: r.1.map AdminCall.lookupGroup, [], CmdExit.died 68 m⟩
  | Except.ok ids =>
    let tl := if args.admin then [env.systemGroupId] else []
    let ps := popFirst ids env.userGroupId tl
    let cc := mkCreateCall args ps.1 ps.2
    let calls := lookCall :: r.1.map AdminCall.lookupGroup ++
      [AdminCall.getSecurityRoles, cc]
    match env.createResult with
    | CreateResult.ok i =>
      let msg := match args.userpassword with
        | none => "Added user " ++ toString i
        | some _ => "Added user " ++ toString i ++ " with password"
      ⟨calls, [msg], CmdExit.ok⟩
    | CreateResult.validationConstraint =>
      ⟨calls, [], CmdExit.died 66 ("User already exists: " ++ args.username)⟩
    | CreateResult.validationOther m =>
      ⟨calls, [], CmdExit.died 67 ("Unknown ValidationException: " ++ m)⟩
    | CreateResult.securityViolation m =>
      ⟨calls, [], CmdExit.died 68 ("Security violation: " ++ m)⟩

/-- `UserControl.add` (`user.py` lines 185-246): look up the login; if a
user is found, succeed without creating under `--ignore-existing` and die
with code 3 otherwise; else proceed to group resolution and creation. -/
def add (args : AddArgs) (env : AddEnv) : CmdResult :=
  match env.lookupUser with
  | LookupUserResult.found uid =>
    if args.ignore_existing then
      ⟨[AdminCall.lookupExperimenter args.username],
       ["User exists: " ++ args.username ++ " (id=" ++ toString uid ++ ")"],
       CmdExit.ok⟩
    else
      ⟨[AdminCall.lookupExperimenter args.username], [],
       CmdExit.died 3
         ("User exists: " ++ args.username ++ " (id=" ++ toString uid ++ ")")⟩
  | LookupUserResult.nullResult => proceedAdd args env
  | LookupUserResult.apiUsage => proceedAdd args env

/-- Arguments of the spec scenario
`add alice Alice Wonderland groupA -P secret`. -/
def aliceArgs : AddArgs :=
  ⟨"alice", "Alice", "Wonderland", none, none, none, some "secret",
   false, false, ["groupA"]⟩

/-- Environment of the spec scenario: no existing `alice`, `groupA`
resolves to id 7, default user group id 1, system group id 0, creation
succeeds with id 42. -/
def aliceEnv : AddEnv :=
  ⟨LookupUserResult.apiUsage,
   fun g => if g = "groupA" then LookupGroupResult.found 7
            else LookupGroupResult.apiUsage "Unknown group",
   1, 0, CreateResult.ok 42⟩

/-! ## The `list` sub-command (`user.py` lines 137-183) -/

/-- One `GroupExperimenterMap` link of a user: the group id
(`x.parent.id.val`) and the owner flag (`x.owner.val`). -/
structure GroupLink where
  gid : Int
  owner : Bool
deriving DecidableEq

/-- A user record as returned by `lookupExperimenters` for `list`; map
entries can be `None` in the wire format, hence `Option GroupLink`. -/
structure ListUser where
  id : Int
  omeName : String
  firstName : String
  lastName : String
  email : Option String
  groupMap : List (Option GroupLink)
deriving DecidableEq

/-- The per-user column computation of `list`. -/
structure ClassRes where
  active : String
  admin : String
  memberOf : List Int
  leaderOf : List Int
deriving DecidableEq

/-- The loop over `user.copyGroupExperimenterMap()` at `user.py` lines
157-168: `None` entries are skipped; the default user group sets the
active column, the system group sets the admin column, other owner links
go to leader-of and the rest to member-of. -/
def classify (ug sg : Int) : List (Option GroupLink) → ClassRes
  | [] => ⟨"", "", [], []⟩
  | none :: rest => classify ug sg rest
  | some l :: rest =>
    let st := classify ug sg rest
    if ug = l.gid then ⟨"Yes", st.admin, st.memberOf, st.leaderOf⟩
    else if sg = l.gid then ⟨st.active, "Yes", st.memberOf, st.leaderOf⟩
    else if l.owner then ⟨st.active, st.admin, st.memberOf, l.gid :: st.leaderOf⟩
    else ⟨st.active, st.admin, l.gid :: st.memberOf, st.leaderOf⟩

/-- The non-`None` membership links, in order (`if not x: continue` at
`user.py` lines 158-159). -/
def presentLinks : List (Option GroupLink) → List GroupLink
  | [] => []
  | none :: rest => presentLinks rest
  | some l :: rest => l :: presentLinks rest

/-- One rendered table row of `list`. -/
structure UserRow where
  id : Int
  omeName : String
  firstName : String
  lastName : String
  email : String
  active : String
  admin : String
  memberOf : String
  leaderOf : String
deriving DecidableEq

/-- `",".join(...)` over stringified group ids, or `""` when empty
(`user.py` lines 173-180). -/
def renderIds (l : List Int) : String :=
  String.intercalate "," (l.map toString)

/-- The row built for one user (`user.py` lines 150-182). -/
def buildRow (ug sg : Int) (u : ListUser) : UserRow :=
  let c := classify ug sg u.groupMap
  ⟨u.id, u.omeName, u.firstName, u.lastName, u.email.getD "",
   c.active, c.admin, renderIds c.memberOf, renderIds c.leaderOf⟩

/-- The comparison used by `users.sort(lambda a,b: cmp(a.id.val,b.id.val))`
at `user.py` line 149. -/
def userLe (a b : ListUser) : Prop := a.id ≤ b.id

instance : DecidableRel userLe :=
  fun a b => inferInstanceAs (Decidable (a.id ≤ b.id))

instance : IsTotal ListUser userLe :=
  ⟨fun a b => Int.le_total a.id b.id⟩

instance : IsTrans ListUser userLe :=
  ⟨fun _ _ _ h1 h2 => le_trans h1 h2⟩

/-- `UserControl.list` (`user.py` lines 137-183): sort the users by id
(Python's sort is stable; a stable insertion sort models it) and build one
row per user. -/
def list (ug sg : Int) (users : List ListUser) : List UserRow :=
  (List.insertionSort userLe users).map (buildRow ug sg)

/-! ## The `email` sub-command (`user.py` lines 63-105) -/

/-- A user record as consumed by `email` and `format_name`. -/
structure Experimenter where
  firstName : String
  middleName : Option String
  lastName : String
  email : Option String
deriving DecidableEq

/-- Parsed flags of `email`. -/
structure EmailArgs where
  names : Bool
  one : Bool
  ignore : Bool
deriving DecidableEq

/-- `UserControl.format_name` (`user.py` lines 63-71): first and last name
joined by a single space, or with the middle name between spaces when it is
present and non-empty (Python truthiness of the unwrapped value). -/
def format_name (e : Experimenter) : String :=
  let mn := match e.middleName with
    | some m => if m = "" then " " else " " ++ m ++ " "
    | none => " "
  e.firstName ++ mn ++ e.lastName

/-- Python truthiness of `_(exp.email)`: a present, non-empty address. -/
def hasEmail (e : Experimenter) : Bool := !(e.email.getD "" == "")

/-- The record rendered for a user with an email (`user.py` lines 87-92). -/
def renderEmail (names : Bool) (e : Experimenter) : String :=
  if names then
    "\"" ++ format_name e ++ "\"" ++ " <" ++ e.email.getD "" ++ ">"
  else e.email.getD ""

/-- The loop at `user.py` lines 79-94: returns (skipped, records). A user
without an email is appended to `skipped` unless `--ignore` is set and
contributes no record; other users contribute their rendered record. -/
def emailScan (ignore names : Bool) :
    List Experimenter → List Experimenter × List String
  | [] => ([], [])
  | e :: rest =>
    let r := emailScan ignore names rest
    if e.email.getD "" = "" then
      if ignore then r else (e :: r.1, r.2)
    else
      (r.1, renderEmail names e :: r.2)

/-- `UserControl.email` (`user.py` lines 73-105): returns (normal-channel
lines, error-channel lines). Records are printed one per line under `-1`,
otherwise as a single comma-space-joined line; skipped users are reported
on the error channel by display name under a header. -/
def email (args : EmailArgs) (exps : List Experimenter) :
    List String × List String :=
  let s := emailScan args.ignore args.names exps
  let outs := if args.one then s.2 else [String.intercalate ", " s.2]
  let errs :=
    if s.1.isEmpty then []
    else "Missing email addresses:" :: s.1.map format_name
  (outs, errs)

/-! ## `joingroup` / `leavegroup` (`user.py` lines 271-319) -/

/-- Modelled from the spec: a resolved group record together with the two
membership lists the `UserGroupControl.getuserids` / `getownerids` helpers
(defined in `omero/cli.py`, outside the reviewed sources) read from it —
the plain-member user ids and the owner user ids (spec §3 UserRecord /
§4.1 joingroup). -/
structure Group where
  id : Int
  userIds : List Int
  ownerIds : List Int
deriving DecidableEq

/-- Modelled from the spec: the membership list consulted for the requested
role — `getownerids` under `--as-owner`, `getuserids` otherwise
(`user.py` lines 274-278). -/
def relationList (owner : Bool) (g : Group) : List Int :=
  if owner then g.ownerIds else g.userIds

/-- The relation word used in the skip messages (`user.py` lines 276, 279). -/
def relationName (owner : Bool) : String :=
  if owner then "owner of" else "in"

/-- `UserControl.filter_groups` (`user.py` lines 271-289): drop the groups
for which the change is a no-op, emitting one informational message per
dropped group; returns (surviving groups, messages). -/
def filter_groups (uid : Int) (owner join : Bool) :
    List Group → List Group × List String
  | [] => ([], [])
  | g :: gs =>
    let uidList := relationList owner g
    let r := filter_groups uid owner join gs
    if join then
      if uid ∈ uidList then
        (r.1, (toString uid ++ " is already " ++ relationName owner ++
          " group " ++ toString g.id) :: r.2)
      else (g :: r.1, r.2)
    else
      if uid ∈ uidList then (g :: r.1, r.2)
      else
        (r.1, (toString uid ++ " is not " ++ relationName owner ++
          " group " ++ toString g.id) :: r.2)

/-- Modelled from the spec: the remote mutation the
`addownersbyid` / `addusersbyid` helpers issue per group
(spec §6 `addOwnersToGroup` / `addUsersToGroup`). -/
def joinCall (owner : Bool) (uid : Int) (g : Group) : AdminCall :=
  if owner then AdminCall.addOwnersToGroup g.id [uid]
  else AdminCall.addUsersToGroup g.id [uid]

/-- Modelled from the spec: the remote mutation the
`removeownersbyid` / `removeusersbyid` helpers issue per group
(spec §6 `removeOwnersFromGroup` / `removeUsersFromGroup`). -/
def leaveCall (owner : Bool) (uid : Int) (g : Group) : AdminCall :=
  if owner then AdminCall.removeOwnersFromGroup g.id [uid]
  else AdminCall.removeUsersFromGroup g.id [uid]

/-- `UserControl.joingroup` (`user.py` lines 291-304) after user/group
resolution: filter out no-op joins, then issue one membership (or
ownership) addition per surviving group. Returns (mutation calls,
skip messages). -/
def joingroup (uid : Int) (as_owner : Bool) (groups : List Group) :
    List AdminCall × List String :=
  let r := filter_groups uid as_owner true groups
  (r.1.map (joinCall as_owner uid), r.2)

/-- `UserControl.leavegroup` (`user.py` lines 306-319) after user/group
resolution: filter out no-op leaves, then issue one membership (or
ownership) removal per surviving group. Returns (mutation calls,
skip messages). -/
def leavegroup (uid : Int) (as_owner : Bool) (groups : List Group) :
    List AdminCall × List String :=
  let r := filter_groups uid as_owner false groups
  (r.1.map (leaveCall as_owner uid), r.2)

/-- Concrete password environment used for the call-count counterexample. -/
def cexPasswordEnv : PasswordEnv := ⟨"root", "old", "new", true⟩

/-- Environment where the login already belongs to user id 9. -/
def dupEnv : AddEnv :=
  ⟨LookupUserResult.found 9, fun _ => LookupGroupResult.apiUsage "x", 1, 0,
   CreateResult.ok 42⟩

/-- Environment where group resolution fails. -/
def badGroupEnv : AddEnv :=
  ⟨LookupUserResult.nullResult,
   fun _ => LookupGroupResult.apiUsage "Unknown group: nope", 1, 0,
   CreateResult.ok 42⟩

/-! ## Helper lemmas -/

theorem add_eq_proceed (args : AddArgs) (env : AddEnv)
    (hu : foundId env.lookupUser = none) :
    add args env = proceedAdd args env := by
  cases h : env.lookupUser
  · rw [h] at hu; simp [foundId] at hu
  · simp [add, h]
  · simp [add, h]

theorem isCreateCall_mkCreateCall (args : AddArgs) (p : Int) (s : List Int) :
    isCreateCall (mkCreateCall args p s) = true := by
  cases h : args.userpassword <;> simp [mkCreateCall, h, isCreateCall]

theorem filter_create_lookups (l : List String) :
    (l.map AdminCall.lookupGroup).filter isCreateCall = [] := by
  induction l with
  | nil => rfl
  | cons a t ih => simp [isCreateCall, ih]

theorem isCreateCall_lookupExperimenter (l : String) :
    isCreateCall (AdminCall.lookupExperimenter l) = false := rfl

theorem isCreateCall_getSecurityRoles :
    isCreateCall AdminCall.getSecurityRoles = false := rfl

/-! ## Claim theorems -/

/-- C1: every `password` invocation first verifies the caller's own
credential via `setSecurityPassword`; on failure it dies with code 456
having issued no password-change call; on success it issues exactly
`changeUserPassword(username, pw)` when a target username was given and
`changePassword(pw)` otherwise. -/
theorem user_password_spec (username : Option String) (env : PasswordEnv) :
    (password username env).calls.head? =
      some (AdminCall.setSecurityPassword env.ownPw)
    ∧ (env.verifyOk = false →
        (password username env).exit =
          CmdExit.died 456 "SecurityViolation: Bad credentials"
        ∧ (password username env).calls.filter isChangeCall = [])
    ∧ (env.verifyOk = true →
        (password username env).calls =
          [AdminCall.setSecurityPassword env.ownPw,
           changeCallFor username env.newPw]
        ∧ (password username env).exit = CmdExit.ok) := by
  cases h : env.verifyOk
  · simp [password, h, isChangeCall]
  · simp [password, h]

/-- Witness for C1: concrete verified invocation targeting user `bob`. -/
theorem user_password_spec_w :
    (password (some "bob") cexPasswordEnv).calls =
      [AdminCall.setSecurityPassword "old",
       AdminCall.changeUserPassword "bob" "new"] :=
  ((user_password_spec (some "bob") cexPasswordEnv).2.2 rfl).1

/-- C2: when the login already exists, `add` issues no creation call;
with `--ignore-existing` it reports "User exists" and succeeds, without
the flag it dies with exit code 3. -/
theorem user_add_existing_spec (args : AddArgs) (env : AddEnv) (uid : Int)
    (h : env.lookupUser = LookupUserResult.found uid) :
    (add args env).calls.filter isCreateCall = []
    ∧ (args.ignore_existing = true →
        (add args env).exit = CmdExit.ok
        ∧ (add args env).outs =
            ["User exists: " ++ args.username ++ " (id=" ++ toString uid ++ ")"])
    ∧ (args.ignore_existing = false →
        (add args env).exit =
          CmdExit.died 3
            ("User exists: " ++ args.username ++ " (id=" ++ toString uid ++ ")")) := by
  cases hig : args.ignore_existing <;> simp [add, h, hig, isCreateCall]

/-- Witness for C2: adding `alice` when user id 9 already owns the login
and `--ignore-existing` is not set dies with exit code 3. -/
theorem user_add_existing_spec_w :
    (add aliceArgs dupEnv).exit = CmdExit.died 3 "User exists: alice (id=9)" :=
  (user_add_existing_spec aliceArgs dupEnv 9 rfl).2.2 rfl

/-- C8: a join request for a (user, group, role) the user already holds is
filtered out — no remote mutation, an "already in/owner of" message — so a
second identical `joingroup` is a no-op; symmetrically a leave request for
a relation the user does not hold issues no mutation and reports "not
in/owner of". -/
theorem user_group_noop_spec (uid : Int) (g : Group) (b : Bool) :
    (uid ∈ relationList b g →
      (joingroup uid b [g]).1 = []
      ∧ (joingroup uid b [g]).2 =
          [toString uid ++ " is already " ++ relationName b ++ " group " ++
            toString g.id])
    ∧ (uid ∉ relationList b g →
      (leavegroup uid b [g]).1 = []
      ∧ (leavegroup uid b [g]).2 =
          [toString uid ++ " is not " ++ relationName b ++ " group " ++
            toString g.id]) := by
  constructor
  · intro h
    simp [joingroup, filter_groups, h]
  · intro h
    simp [leavegroup, filter_groups, h]

/-- Witness for C8: user 5 is already an owner of group 3, so
`joingroup --as-owner` issues no mutation. -/
theorem user_group_noop_spec_w :
    (joingroup 5 true [Group.mk 3 [] [5]]).1 = []
    ∧ (joingroup 5 true [Group.mk 3 [] [5]]).2 =
        ["5 is already owner of group 3"] :=
  (user_group_noop_spec 5 (Group.mk 3 [] [5]) true).1 (by decide)

/-- C10: the no-op filter consults only the requested role's list: for a
plain member who is not an owner, `joingroup --as-owner` still issues the
add-owners call and `leavegroup --as-owner` reports not-owner and issues
nothing; moreover the filter's decisions and messages are unchanged under
any modification of the list for the other role. -/
theorem user_filter_role_spec (uid : Int) (g : Group)
    (hmem : uid ∈ g.userIds) (hown : uid ∉ g.ownerIds) :
    (joingroup uid true [g]).1 = [AdminCall.addOwnersToGroup g.id [uid]]
    ∧ (joingroup uid true [g]).2 = []
    ∧ (leavegroup uid true [g]).1 = []
    ∧ (leavegroup uid true [g]).2 =
        [toString uid ++ " is not " ++ relationName true ++ " group " ++
          toString g.id]
    ∧ (∀ (us : List Int) (jn : Bool),
        (filter_groups uid true jn [Group.mk g.id us g.ownerIds]).1.map Group.id =
          (filter_groups uid true jn [g]).1.map Group.id
        ∧ (filter_groups uid true jn [Group.mk g.id us g.ownerIds]).2 =
          (filter_groups uid true jn [g]).2)
    ∧ (∀ (os : List Int) (jn : Bool),
        (filter_groups uid false jn [Group.mk g.id g.userIds os]).1.map Group.id =
          (filter_groups uid false jn [g]).1.map Group.id
        ∧ (filter_groups uid false jn [Group.mk g.id g.userIds os]).2 =
          (filter_groups uid false jn [g]).2) := by
  refine ⟨?_, ?_, ?_, ?_, ?_, ?_⟩
  · simp [joingroup, filter_groups, relationList, hown, joinCall]
  · simp [joingroup, filter_groups, relationList, hown]
  · simp [leavegroup, filter_groups, relationList, hown]
  · simp [leavegroup, filter_groups, relationList, hown, relationName]
  · intro us jn
    by_cases hc : uid ∈ g.ownerIds <;>
      cases jn <;> simp [filter_groups, relationList, hc]
  · intro os jn
    by_cases hc : uid ∈ g.userIds <;>
      cases jn <;> simp [filter_groups, relationList, hc]

/-- Witness for C10: user 5 is a plain member but not an owner of group 3;
`joingroup --as-owner` still issues the add-owners mutation. -/
theorem user_filter_role_spec_w :
    (joingroup 5 true [Group.mk 3 [5] []]).1 =
      [AdminCall.addOwnersToGroup 3 [5]]
    ∧ (leavegroup 5 true [Group.mk 3 [5] []]).2 =
        ["5 is not owner of group 3"] := by
  have h := user_filter_role_spec 5 (Group.mk 3 [5] []) (by decide) (by decide)
  exact ⟨h.1, h.2.2.2.1⟩

/-- C3: on a successful `add` with resolved member-of groups g1..gn, the
creation call receives primary group g1 and secondary groups g2..gn
followed by the default user group, plus the system group when `--admin`
is set; in the scenario `add alice Alice Wonderland groupA -P secret` the
only creation call is `createExperimenterWithPassword` with primary group
7 (groupA) and secondary groups [1] (default group), and the output is
"Added user 42 with password". -/
theorem user_add_group_assignment (args : AddArgs) (env : AddEnv)
    (g1 : Int) (rest : List Int)
    (hu : foundId env.lookupUser = none)
    (hg : (resolveGroups env.lookupGroup args.member_of).2 =
      Except.ok (g1 :: rest)) :
    (add args env).calls.filter isCreateCall =
      [mkCreateCall args g1
        (rest ++ env.userGroupId ::
          (if args.admin then [env.systemGroupId] else []))]
    ∧ (add aliceArgs aliceEnv).calls.filter isCreateCall =
        [AdminCall.createExperimenterWithPassword (mkNewExperimenter aliceArgs)
          "secret" 7 [1]]
    ∧ (add aliceArgs aliceEnv).outs = ["Added user 42 with password"]
    ∧ (add aliceArgs aliceEnv).exit = CmdExit.ok := by
  refine ⟨?_, by decide, by decide, by decide⟩
  rw [add_eq_proceed args env hu]
  cases hc : env.createResult <;>
    simp [proceedAdd, hg, hc, popFirst, filter_create_lookups,
      isCreateCall_mkCreateCall, isCreateCall_lookupExperimenter,
      isCreateCall_getSecurityRoles, List.filter_append]

/-- Witness for C3: the scenario input itself discharges the hypotheses. -/
theorem user_add_group_assignment_w :
    (add aliceArgs aliceEnv).calls.filter isCreateCall =
      [mkCreateCall aliceArgs 7
        ([] ++ aliceEnv.userGroupId ::
          (if aliceArgs.admin then [aliceEnv.systemGroupId] else []))] :=
  (user_add_group_assignment aliceArgs aliceEnv 7 [] rfl rfl).1

/-- C4: in `add`, a member-of resolution failure dies with exit 68 and no
creation call; a constraint-violation on creation dies with 66, any other
validation error with 67, and a security violation with 68. -/
theorem user_add_error_codes (args : AddArgs) (env : AddEnv)
    (hu : foundId env.lookupUser = none) :
    (∀ m, (resolveGroups env.lookupGroup args.member_of).2 = Except.error m →
      (add args env).exit = CmdExit.died 68 m
      ∧ (add args env).calls.filter isCreateCall = [])
    ∧ (∀ ids,
        (resolveGroups env.lookupGroup args.member_of).2 = Except.ok ids →
      (env.createResult = CreateResult.validationConstraint →
        (add args env).exit =
          CmdExit.died 66 ("User already exists: " ++ args.username))
      ∧ (∀ m, env.createResult = CreateResult.validationOther m →
          (add args env).exit =
            CmdExit.died 67 ("Unknown ValidationException: " ++ m))
      ∧ (∀ m, env.createResult = CreateResult.securityViolation m →
          (add args env).exit =
            CmdExit.died 68 ("Security violation: " ++ m))) := by
  rw [add_eq_proceed args env hu]
  constructor
  · intro m hm
    simp [proceedAdd, hm, isCreateCall, filter_create_lookups]
  · intro ids hids
    refine ⟨fun hc => ?_, fun m hc => ?_, fun m hc => ?_⟩ <;>
      simp [proceedAdd, hids, hc]

/-- Witness for C4: an unresolvable group makes `add` die with exit 68. -/
theorem user_add_error_codes_w :
    (add aliceArgs badGroupEnv).exit =
      CmdExit.died 68 "Unknown group: nope" :=
  ((user_add_error_codes aliceArgs badGroupEnv rfl).1
    "Unknown group: nope" rfl).1

/-- C9 counterexample: the `password` invocation below issues two remote
administrative calls (`setSecurityPassword` then `changePassword`), not
exactly one. -/
theorem user_single_call_cex :
    ((password none cexPasswordEnv).calls).length ≠ 1 := by decide

/-- C9 (amended): per invocation the dispatcher issues a bounded,
argument-determined, retry-free call sequence rather than exactly one
call: `password` starts with one verification call, issues at most one
password-change call and never repeats a call; `add` issues at most one
creation call; `joingroup`/`leavegroup` issue exactly one membership
mutation per group surviving the no-op filter. -/
theorem user_call_budget_amended :
    (∀ (u : Option String) (env : PasswordEnv),
      ((password u env).calls.filter isChangeCall).length ≤ 1
      ∧ (password u env).calls.head? =
          some (AdminCall.setSecurityPassword env.ownPw)
      ∧ (password u env).calls.Nodup)
    ∧ (∀ (args : AddArgs) (env : AddEnv),
        ((add args env).calls.filter isCreateCall).length ≤ 1)
    ∧ (∀ (uid : Int) (b : Bool) (groups : List Group),
        (joingroup uid b groups).1.length =
          (filter_groups uid b true groups).1.length
        ∧ (leavegroup uid b groups).1.length =
          (filter_groups uid b false groups).1.length) := by
  refine ⟨fun u env => ?_, fun args env => ?_, fun uid b groups => ?_⟩
  · cases hv : env.verifyOk <;> cases u <;>
      simp [password, hv, changeCallFor, isChangeCall]
  · cases hl : env.lookupUser
    · cases hig : args.ignore_existing <;> simp [add, hl, hig, isCreateCall]
    · rw [add_eq_proceed args env (by rw [hl]; rfl)]
      cases hr : (resolveGroups env.lookupGroup args.member_of).2
      · simp [proceedAdd, hr, isCreateCall, filter_create_lookups]
      · cases hc : env.createResult <;>
          simp [proceedAdd, hr, hc, filter_create_lookups,
            isCreateCall_mkCreateCall, isCreateCall_lookupExperimenter,
            isCreateCall_getSecurityRoles, List.filter_append]
    · rw [add_eq_proceed args env (by rw [hl]; rfl)]
      cases hr : (resolveGroups env.lookupGroup args.member_of).2
      · simp [proceedAdd, hr, isCreateCall, filter_create_lookups]
      · cases hc : env.createResult <;>
          simp [proceedAdd, hr, hc, filter_create_lookups,
            isCreateCall_mkCreateCall, isCreateCall_lookupExperimenter,
            isCreateCall_getSecurityRoles, List.filter_append]
  · simp [joingroup, leavegroup]

theorem classify_active (ug sg : Int) (b : Bool) :
    ∀ xs : List (Option GroupLink), some (GroupLink.mk ug b) ∈ xs →
      (classify ug sg xs).active = "Yes" := by
  intro xs
  induction xs with
  | nil => intro h; simp at h
  | cons x rest ih =>
    intro h
    rcases List.mem_cons.mp h with h1 | h2
    · rw [← h1]
      simp [classify]
    · cases x with
      | none => simpa [classify] using ih h2
      | some l =>
        have ha := ih h2
        simp only [classify]
        by_cases hug : ug = l.gid
        · rw [if_pos hug]
        · rw [if_neg hug]
          by_cases hsg : sg = l.gid
          · rw [if_pos hsg]; exact ha
          · rw [if_neg hsg]
            by_cases how : l.owner = true
            · rw [if_pos how]; exact ha
            · rw [if_neg how]; exact ha

theorem classify_admin (ug sg : Int) (b : Bool) (hne : ug ≠ sg) :
    ∀ xs : List (Option GroupLink), some (GroupLink.mk sg b) ∈ xs →
      (classify ug sg xs).admin = "Yes" := by
  intro xs
  induction xs with
  | nil => intro h; simp at h
  | cons x rest ih =>
    intro h
    rcases List.mem_cons.mp h with h1 | h2
    · rw [← h1]
      simp [classify, hne]
    · cases x with
      | none => simpa [classify] using ih h2
      | some l =>
        have ha := ih h2
        simp only [classify]
        by_cases hug : ug = l.gid
        · rw [if_pos hug]; exact ha
        · rw [if_neg hug]
          by_cases hsg : sg = l.gid
          · rw [if_pos hsg]
          · rw [if_neg hsg]
            by_cases how : l.owner = true
            · rw [if_pos how]; exact ha
            · rw [if_neg how]; exact ha

theorem classify_memberOf (ug sg : Int) :
    ∀ xs : List (Option GroupLink),
      ug ∉ (classify ug sg xs).memberOf ∧ sg ∉ (classify ug sg xs).memberOf := by
  intro xs
  induction xs with
  | nil => simp [classify]
  | cons x rest ih =>
    cases x with
    | none => simpa [classify] using ih
    | some l =>
      simp only [classify]
      by_cases hug : ug = l.gid
      · rw [if_pos hug]; exact ih
      · rw [if_neg hug]
        by_cases hsg : sg = l.gid
        · rw [if_pos hsg]; exact ih
        · rw [if_neg hsg]
          by_cases how : l.owner = true
          · rw [if_pos how]; exact ih
          · rw [if_neg how]
            constructor
            · simp only [List.mem_cons]
              rintro (hx | hx)
              · exact hug hx
              · exact ih.1 hx
            · simp only [List.mem_cons]
              rintro (hx | hx)
              · exact hsg hx
              · exact ih.2 hx

/-- C5: `list` emits rows sorted strictly ascending by user id (the remote
service returns distinct ids and distinct role-group ids); default-group
membership yields "Yes" in the active column and that id never appears in
member-of; system-group membership yields "Yes" in the admin column and
that id never appears in member-of. -/
theorem user_list_spec (ug sg : Int) (users : List ListUser)
    (hnd : (users.map ListUser.id).Nodup) (hne : ug ≠ sg) :
    (list ug sg users).Pairwise (fun r s => r.id < s.id)
    ∧ (∀ (xs : List (Option GroupLink)) (b : Bool),
        (some (GroupLink.mk ug b) ∈ xs → (classify ug sg xs).active = "Yes")
        ∧ (some (GroupLink.mk sg b) ∈ xs → (classify ug sg xs).admin = "Yes"))
    ∧ (∀ xs : List (Option GroupLink),
        ug ∉ (classify ug sg xs).memberOf
        ∧ sg ∉ (classify ug sg xs).memberOf) := by
  refine ⟨?_,
    fun xs b => ⟨classify_active ug sg b xs, classify_admin ug sg b hne xs⟩,
    classify_memberOf ug sg⟩
  have hs : (List.insertionSort userLe users).Pairwise userLe :=
    List.sorted_insertionSort userLe users
  have hperm : (List.insertionSort userLe users).Perm users :=
    List.perm_insertionSort userLe users
  have hnd2 : ((List.insertionSort userLe users).map ListUser.id).Nodup :=
    ((hperm.map ListUser.id).nodup_iff).mpr hnd
  have hne2 : (List.insertionSort userLe users).Pairwise
      (fun a b => ListUser.id a ≠ ListUser.id b) :=
    List.pairwise_map.mp hnd2
  have hlt : (List.insertionSort userLe users).Pairwise
      (fun a b => a.id < b.id) :=
    (hs.and hne2).imp (fun h => lt_of_le_of_ne h.1 h.2)
  rw [list, List.pairwise_map]
  exact hlt.imp (fun h => by simpa [buildRow] using h)

/-- Witness for C5: two users with distinct ids, distinct role groups. -/
theorem user_list_spec_w :
    (list 1 0
      [ListUser.mk 2 "b" "B" "Bb" none [some (GroupLink.mk 1 false)],
       ListUser.mk 1 "a" "A" "Aa" none [some (GroupLink.mk 0 false)]]).Pairwise
      (fun r s => r.id < s.id) :=
  (user_list_spec 1 0
    [ListUser.mk 2 "b" "B" "Bb" none [some (GroupLink.mk 1 false)],
     ListUser.mk 1 "a" "A" "Aa" none [some (GroupLink.mk 0 false)]]
    (by decide) (by decide)).1

/-- C6 counterexample: a user owning the system group (id 0, with user
group id 1): the owner-flagged link contributes nothing to leader-of,
contradicting the claim that every owner-flagged entry contributes its
group id. -/
theorem user_list_leader_cex :
    (0 : Int) ∉ (classify 1 0 [some (GroupLink.mk 0 true)]).leaderOf := by
  decide

/-- C6 (amended): the leader-of column contains exactly the group ids of
the owner-flagged membership entries other than the default user group and
the system group (those two are classified into the active/admin columns
instead). -/
theorem user_list_leader_amended (ug sg : Int)
    (xs : List (Option GroupLink)) :
    (classify ug sg xs).leaderOf =
      ((presentLinks xs).filter
        (fun l => decide (¬ug = l.gid ∧ ¬sg = l.gid ∧ l.owner = true))).map
        GroupLink.gid := by
  induction xs with
  | nil => rfl
  | cons x rest ih =>
    cases x with
    | none => simpa [classify, presentLinks] using ih
    | some l =>
      simp only [classify, presentLinks]
      by_cases hug : ug = l.gid
      · rw [if_pos hug]
        have hcl : ¬(decide (¬ug = l.gid ∧ ¬sg = l.gid ∧ l.owner = true) = true) := by
          simp [hug]
        rw [List.filter_cons, if_neg hcl]
        exact ih
      · rw [if_neg hug]
        by_cases hsg : sg = l.gid
        · rw [if_pos hsg]
          have hcl : ¬(decide (¬ug = l.gid ∧ ¬sg = l.gid ∧ l.owner = true) = true) := by
            simp [hsg]
          rw [List.filter_cons, if_neg hcl]
          exact ih
        · rw [if_neg hsg]
          by_cases how : l.owner = true
          · rw [if_pos how]
            have hcl : decide (¬ug = l.gid ∧ ¬sg = l.gid ∧ l.owner = true) = true := by
              simp [hug, hsg, how]
            rw [List.filter_cons, if_pos hcl, List.map_cons]
            exact congrArg (List.cons l.gid) ih
          · rw [if_neg how]
            have hcl : ¬(decide (¬ug = l.gid ∧ ¬sg = l.gid ∧ l.owner = true) = true) := by
              simp [how]
            rw [List.filter_cons, if_neg hcl]
            exact ih

theorem emailScan_records (ig nm : Bool) :
    ∀ exps : List Experimenter,
      (emailScan ig nm exps).2 =
        (exps.filter hasEmail).map (renderEmail nm) := by
  intro exps
  induction exps with
  | nil => rfl
  | cons e rest ih =>
    by_cases he : e.email.getD "" = ""
    · have hf : hasEmail e = false := by simp [hasEmail, he]
      cases hig : ig <;> rw [hig] at ih <;> simp [emailScan, he, hf, ih]
    · have hf : hasEmail e = true := by simp [hasEmail, he]
      simp [emailScan, he, hf, ih]

theorem emailScan_skipped (ig nm : Bool) :
    ∀ exps : List Experimenter,
      (emailScan ig nm exps).1 =
        if ig then [] else exps.filter (fun e => !(hasEmail e)) := by
  intro exps
  induction exps with
  | nil => cases ig <;> rfl
  | cons e rest ih =>
    by_cases he : e.email.getD "" = ""
    · have hf : hasEmail e = false := by simp [hasEmail, he]
      cases hig : ig <;> rw [hig] at ih <;> simp [emailScan, he, hf, ih]
    · have hf : hasEmail e = true := by simp [hasEmail, he]
      cases hig : ig <;> rw [hig] at ih <;> simp [emailScan, he, hf, ih]

/-- C7: a user without an email address is excluded from the value output;
without `--ignore` their display name goes to the error channel, with
`--ignore` the error channel stays empty. Users with an email render as a
comma-space-joined single line by default and one per line under `-1`;
each entry is `"Display Name" <email>` under `--names` and the bare email
otherwise. -/
theorem user_email_spec (args : EmailArgs) (exps : List Experimenter)
    (u : Experimenter) (hu : u ∈ exps) (hne : u.email.getD "" = "") :
    (args.ignore = false → format_name u ∈ (email args exps).2)
    ∧ (args.ignore = true → (email args exps).2 = [])
    ∧ (email args exps).1 =
        (if args.one then (exps.filter hasEmail).map (renderEmail args.names)
         else [String.intercalate ", "
           ((exps.filter hasEmail).map (renderEmail args.names))])
    ∧ u ∉ exps.filter hasEmail
    ∧ (∀ e : Experimenter, renderEmail true e =
        "\"" ++ format_name e ++ "\"" ++ " <" ++ e.email.getD "" ++ ">")
    ∧ (∀ e : Experimenter, renderEmail false e = e.email.getD "") := by
  have hfu : hasEmail u = false := by simp [hasEmail, hne]
  refine ⟨?_, ?_, ?_, ?_, fun e => rfl, fun e => rfl⟩
  · intro hig
    have h1 : (emailScan args.ignore args.names exps).1 =
        exps.filter (fun e => !(hasEmail e)) := by
      rw [emailScan_skipped, hig]; simp
    have humem : u ∈ (emailScan args.ignore args.names exps).1 := by
      rw [h1]
      exact List.mem_filter.mpr ⟨hu, by simp [hfu]⟩
    have hnonempty :
        (emailScan args.ignore args.names exps).1.isEmpty = false := by
      cases hE : (emailScan args.ignore args.names exps).1 with
      | nil => rw [hE] at humem; cases humem
      | cons a t => simp [hE]
    simp only [email, hnonempty]
    simp only [Bool.false_eq_true, if_false, List.mem_cons]
    exact Or.inr (List.mem_map_of_mem format_name humem)
  · intro hig
    have h1 : (emailScan args.ignore args.names exps).1 = [] := by
      rw [emailScan_skipped, hig]; simp
    simp [email, h1]
  · simp [email, emailScan_records]
  · intro hmem
    have := (List.mem_filter.mp hmem).2
    rw [hfu] at this
    cases this

/-- Witness for C7: Carol has no email; without `--ignore` her display
name appears on the error channel. -/
theorem user_email_spec_w :
    format_name (Experimenter.mk "Carol" none "C" none) ∈
      (email (EmailArgs.mk true true false)
        [Experimenter.mk "Bob" none "B" (some "bob@x.com"),
         Experimenter.mk "Carol" none "C" none]).2 :=
  (user_email_spec (EmailArgs.mk true true false)
    [Experimenter.mk "Bob" none "B" (some "bob@x.com"),
     Experimenter.mk "Carol" none "C" none]
    (Experimenter.mk "Carol" none "C" none) (by decide) rfl).1 rfl

end OmeroUser
